import Mathlib

/-!
Verification of the Financial Health Assessment Tool's analysis engine
specification. The repository ships a React frontend (upload page, dashboard,
analysis page, API client); the scoring engine itself is described by the
specification and exercised by the frontend's mock data, so the engine's
operations are modelled here from the specification, while the frontend
pieces (API request bodies, upload handler, mock data, UI thresholds) are
embedded directly from their source files. All currency amounts and ratios
are exact rationals.
-/

namespace FinHealth

/-- Income statement fields of a `StatementModel`, embedded from the shape of
`mockExtractedData` in `frontend/src/pages/Upload.jsx` (fields `revenue`,
`cogs`, `gross_profit`, `operating_expenses`, `net_income`). -/
structure IncomeStatement where
  revenue : ℚ
  cogs : ℚ
  gross_profit : ℚ
  operating_expenses : ℚ
  net_income : ℚ
deriving DecidableEq

/-- Balance sheet fields of a `StatementModel`. The required fields follow
`mockExtractedData` in `frontend/src/pages/Upload.jsx`; `inventory`,
`receivables` and `cash` are the optional fields the specification lists,
absent from the mock statement. -/
structure BalanceSheet where
  total_assets : ℚ
  current_assets : ℚ
  total_liabilities : ℚ
  current_liabilities : ℚ
  equity : ℚ
  inventory : Option ℚ
  receivables : Option ℚ
  cash : Option ℚ
deriving DecidableEq

/-- A validated statement: income statement plus balance sheet. -/
structure Statement where
  income : IncomeStatement
  balance : BalanceSheet
deriving DecidableEq

/-- The fixed demo statement `mockExtractedData` from
`frontend/src/pages/Upload.jsx` (lines 42-57). -/
def mockExtractedData : Statement :=
  ⟨⟨54000000, 32400000, 21600000, 12960000, 8640000⟩,
   ⟨125000000, 45000000, 50000000, 24000000, 75000000, none, none, none⟩⟩

/-- A computed financial metric: a name, an optional value (`none` when the
metric is undefined) and the reason it is undefined, if it is. -/
structure Metric where
  name : String
  value : Option ℚ
  undefined_reason : Option String
deriving DecidableEq

/-- Modelled from the spec: the MetricsCalculator's division-by-zero policy
(missing from `src/`, which has no backend). Any denominator that is not
strictly positive yields a metric with `value = none` and an attached
`undefined_reason`, never an exception and never zero. -/
def ratioMetric (nm : String) (num den : ℚ) : Metric :=
  ⟨nm, if den ≤ 0 then none else some (num / den),
       if den ≤ 0 then some "non-positive denominator" else none⟩

/-- Modelled from the spec: a ratio whose numerator or denominator comes from
an optional statement field; a missing input leaves the metric undefined
(omitted from aggregation), not zero. -/
def ratioMetricOpt (nm : String) (num den : Option ℚ) : Metric :=
  match num, den with
  | some a, some b => ratioMetric nm a b
  | _, _ => ⟨nm, none, some "missing input"⟩

/-- Modelled from the spec: the MetricsCalculator's liquidity ratios
(current, quick and cash ratio). -/
def liquidityMetrics (s : Statement) : List Metric :=
  [ ratioMetric "current_ratio" s.balance.current_assets s.balance.current_liabilities,
    ratioMetricOpt "quick_ratio"
      (s.balance.inventory.map (fun inv => s.balance.current_assets - inv))
      (some s.balance.current_liabilities),
    ratioMetricOpt "cash_ratio" s.balance.cash (some s.balance.current_liabilities) ]

/-- Modelled from the spec: the MetricsCalculator's profitability ratios
(gross margin, net margin, return on equity, return on assets). -/
def profitabilityMetrics (s : Statement) : List Metric :=
  [ ratioMetric "gross_margin" s.income.gross_profit s.income.revenue,
    ratioMetric "net_margin" s.income.net_income s.income.revenue,
    ratioMetric "roe" s.income.net_income s.balance.equity,
    ratioMetric "roa" s.income.net_income s.balance.total_assets ]

/-- Modelled from the spec: the MetricsCalculator's solvency ratios. The
statement model carries no interest-expense figure, so `interest_coverage`
is omitted, as the specification requires for an absent input. -/
def solvencyMetrics (s : Statement) : List Metric :=
  [ ratioMetric "debt_to_equity" s.balance.total_liabilities s.balance.equity,
    ratioMetric "debt_ratio" s.balance.total_liabilities s.balance.total_assets ]

/-- Modelled from the spec: the MetricsCalculator's efficiency ratios. -/
def efficiencyMetrics (s : Statement) : List Metric :=
  [ ratioMetric "asset_turnover" s.income.revenue s.balance.total_assets,
    ratioMetricOpt "inventory_turnover" (some s.income.cogs) s.balance.inventory,
    ratioMetricOpt "receivables_turnover" (some s.income.revenue) s.balance.receivables ]

/-- Value of the named metric in a metric list (`none` when absent or
undefined). -/
def metricValue (ms : List Metric) (nm : String) : Option ℚ :=
  (ms.find? (fun m => m.name == nm)).bind Metric.value

/-- Qualitative rating of a benchmarked metric. -/
inductive MetricRating where
  | excellent
  | good
  | fair
  | poor
deriving DecidableEq

/-- The `"services"` benchmark values, taken from the only benchmark table in
the repository: the per-metric `benchmark` column of `metricsData` in the
Analysis page (`src/unnamed/part_000`, lines 33-55). Percent entries are read
as fractions. -/
def servicesBenchmarks : List (String × ℚ) :=
  [ ("current_ratio", 3/2), ("quick_ratio", 1), ("cash_ratio", 1/2),
    ("gross_margin", 7/20), ("net_margin", 7/100), ("roe", 3/25), ("roa", 2/25),
    ("debt_to_equity", 1), ("debt_ratio", 1/2), ("interest_coverage", 3),
    ("asset_turnover", 3/2), ("inventory_turnover", 7), ("receivables_turnover", 10) ]

/-- Modelled from the spec: the static IndustryBenchmarkTable. Only the
default `"services"` set is recoverable from the repository (the Analysis
page's mock table); the table maps each known industry code to its set. -/
def industryTable : List (String × List (String × ℚ)) :=
  [ ("services", servicesBenchmarks) ]

/-- Benchmark set lookup for an industry code. -/
def lookupBenchSet (industry : String) : Option (List (String × ℚ)) :=
  (industryTable.find? (fun p => p.1 == industry)).map Prod.snd

/-- Modelled from the spec: the two lower-is-better metrics, for which the
benchmark comparison direction is inverted. -/
def lowerIsBetter (nm : String) : Bool :=
  nm == "debt_to_equity" || nm == "debt_ratio"

/-- Modelled from the spec: rating rule for higher-is-better metrics
(value at least 1.2x benchmark is excellent, at least 1.0x good, at least
0.8x fair, else poor). -/
def rateHigher (v bench : ℚ) : MetricRating :=
  if 12/10 * bench ≤ v then .excellent
  else if bench ≤ v then .good
  else if 8/10 * bench ≤ v then .fair
  else .poor

/-- Modelled from the spec: the inverted rating rule for lower-is-better
metrics (mirror image of `rateHigher`). -/
def rateLower (v bench : ℚ) : MetricRating :=
  if v ≤ 8/10 * bench then .excellent
  else if v ≤ bench then .good
  else if v ≤ 12/10 * bench then .fair
  else .poor

/-- A metric together with its benchmark value and rating, plus the
unknown-industry warning flag. An undefined metric, or one with no benchmark
entry, carries no rating. -/
structure BenchmarkedMetric where
  metric : Metric
  benchmark_value : Option ℚ
  rating : Option MetricRating
  warning : Bool
deriving DecidableEq

/-- Rate a metric against a given benchmark set. -/
def rateAgainst (bench : List (String × ℚ)) (m : Metric) : BenchmarkedMetric :=
  match m.value, ((bench.find? (fun p => p.1 == m.name)).map Prod.snd) with
  | some v, some b =>
      ⟨m, some b, some (if lowerIsBetter m.name then rateLower v b else rateHigher v b), false⟩
  | some _, none => ⟨m, none, none, false⟩
  | none, b => ⟨m, b, none, false⟩

/-- Modelled from the spec: `BenchmarkComparator.rate` (missing from `src/`).
An unknown industry code falls back to the default `"services"` benchmark set
and marks the result with a warning; it never fails. -/
def rate (m : Metric) (industry : String) : BenchmarkedMetric :=
  match lookupBenchSet industry with
  | some bs => rateAgainst bs m
  | none =>
      let r := rateAgainst servicesBenchmarks m
      ⟨r.metric, r.benchmark_value, r.rating, true⟩

/-- Modelled from the spec: numeric band for each qualitative rating used by
the HealthScoreAggregator (excellent 95, good 78, fair 55, poor 30). -/
def ratingBandValue : MetricRating → ℚ
  | .excellent => 95
  | .good => 78
  | .fair => 55
  | .poor => 30

/-- Band values of the rated (defined) metrics in a list; undefined metrics
contribute nothing. -/
def definedRatings (l : List BenchmarkedMetric) : List ℚ :=
  l.filterMap (fun bm => bm.rating.map ratingBandValue)

/-- Modelled from the spec: a category's 0-100 sub-score is the mean of its
defined metrics' band values; a category with no defined metric has no
sub-score. -/
def subScore (l : List BenchmarkedMetric) : Option ℚ :=
  let rs := definedRatings l
  if rs.length = 0 then none else some (rs.sum / (rs.length : ℚ))

/-- Per-category sub-scores (`none` for a category with no defined metric). -/
structure Components where
  liquidity : Option ℚ
  profitability : Option ℚ
  solvency : Option ℚ
  efficiency : Option ℚ
deriving DecidableEq

/-- Weight-value pair contributed by one category when present. -/
def optPair (w : ℚ) (v : Option ℚ) : List (ℚ × ℚ) :=
  match v with
  | some x => [(w, x)]
  | none => []

/-- Modelled from the spec: the weighted pairs of the present categories,
with the fixed weights liquidity 0.25, profitability 0.30, solvency 0.25,
efficiency 0.20. -/
def weightedPairs (c : Components) : List (ℚ × ℚ) :=
  optPair (1/4) c.liquidity ++ optPair (3/10) c.profitability ++
  optPair (1/4) c.solvency ++ optPair (1/5) c.efficiency

/-- Modelled from the spec: the HealthScoreAggregator's overall score, the
weighted mean of the present category sub-scores renormalized over the
weights actually present (`none` when no category is present). -/
def overallScore (c : Components) : Option ℚ :=
  let ps := weightedPairs c
  let tw := (ps.map Prod.fst).sum
  if tw ≤ 0 then none else some ((ps.map (fun p => p.1 * p.2)).sum / tw)

/-- Modelled from the spec: rating band of the overall health score
(at least 80 Excellent, at least 60 Good, at least 40 Fair, else Poor). -/
def healthRating (score : ℚ) : String :=
  if 80 ≤ score then "Excellent"
  else if 60 ≤ score then "Good"
  else if 40 ≤ score then "Fair"
  else "Poor"

/-- The score-to-color thresholds of `getScoreColor` in the Dashboard page
(`src/unnamed/part_001`, lines 270-275), embedded from the source. -/
def getScoreColor (score : ℚ) : String :=
  if 80 ≤ score then "#10B981"
  else if 60 ≤ score then "#6366F1"
  else if 40 ≤ score then "#F59E0B"
  else "#EF4444"

/-- Overall score of `mockHealthScore` in the Dashboard page
(`src/unnamed/part_001`, lines 225-234). -/
def mockHealthScoreOverall : ℚ := 72

/-- Rating of `mockHealthScore` in the Dashboard page. -/
def mockHealthScoreRating : String := "Good"

/-- Clamp `x` into the interval from `lo` to `hi`. -/
def clampQ (lo hi x : ℚ) : ℚ := max lo (min hi x)

/-- Modelled from the spec: the CreditScorer (missing from `src/`). The
overall health score maps linearly onto 300-900, caller-supplied adjustments
are bounded to plus or minus 30 points, and the final score is clamped so it
never leaves 300-900. -/
def creditScore (overall adjustments : ℚ) : ℚ :=
  clampQ 300 900 (300 + overall / 100 * 600 + clampQ (-30) 30 adjustments)

/-- Modelled from the spec: credit rating bands (at least 750 A, at least
650 B, at least 550 C, else D). -/
def creditRating (score : ℚ) : String :=
  if 750 ≤ score then "A"
  else if 650 ≤ score then "B"
  else if 550 ≤ score then "C"
  else "D"

/-- The credit score hard-coded in the Analysis page's credit card
(`src/unnamed/part_000`, lines 158-175): `format={() => '725'}`. -/
def analysisPageCreditScore : ℚ := 725

/-- The credit rating displayed next to it on the Analysis page:
`Rating: A`. -/
def analysisPageCreditRating : String := "A"

/-- One Newton step sequence for a rational square-root approximation. -/
def sqrtIter : ℕ → ℚ → ℚ → ℚ
  | 0, _, x => x
  | n + 1, a, x => sqrtIter n a ((x + a / x) / 2)

/-- Rational square-root approximation by Newton iteration (used only inside
the interior branch of the volatility factor, where the exact value is
irrational). -/
def approxSqrt (a : ℚ) : ℚ :=
  if a ≤ 0 then 0 else sqrtIter 20 a (max 1 a)

/-- Modelled from the spec: the ForecastEngine's volatility factor, derived
from the historical series' coefficient of variation (standard deviation
over mean) and bounded to the interval 0.05 to 0.30. The two clamp regions
are decided exactly by comparing the variance against the squared cutoffs;
in the interior the irrational square root is approximated rationally and
clamped to the same interval. -/
def volFactor (ys : List ℚ) : ℚ :=
  let n : ℚ := ys.length
  let mean := ys.sum / n
  let varq := (ys.map (fun y => (y - mean) ^ 2)).sum / n
  if mean ≤ 0 then 3/10
  else if 9/100 * mean ^ 2 ≤ varq then 3/10
  else if varq ≤ 1/400 * mean ^ 2 then 1/20
  else clampQ (1/20) (3/10) (approxSqrt varq / mean)

/-- Modelled from the spec: the ForecastEngine's simple linear trend, fitted
by least squares over the history indexed 0, 1, 2, ...; returns the pair of
intercept and slope. -/
def linFit (ys : List ℚ) : ℚ × ℚ :=
  let n : ℚ := ys.length
  let xs := (List.range ys.length).map (fun i => (i : ℚ))
  let sx := xs.sum
  let sy := ys.sum
  let sxx := (xs.map (fun x => x * x)).sum
  let sxy := (List.zipWith (fun x y => x * y) xs ys).sum
  let d := n * sxx - sx * sx
  if d = 0 then (sy / n, 0)
  else
    let m := (n * sxy - sx * sy) / d
    ((sy - m * sx) / n, m)

/-- One projected period: the base trend projection and its optimistic and
pessimistic bands. -/
structure ForecastPoint where
  base : ℚ
  optimistic : ℚ
  pessimistic : ℚ
deriving DecidableEq

/-- Modelled from the spec: the ForecastEngine (missing from `src/`). A
history of fewer than 3 points is rejected with `insufficient_history`;
otherwise each of the requested future periods gets a base projection from
the fitted linear trend, with optimistic band base times (1 + v) and
pessimistic band base times (1 - v) for the volatility factor v. -/
def forecastEngine (ys : List ℚ) (periods : ℕ) : Except String (List ForecastPoint) :=
  if ys.length < 3 then .error "insufficient_history"
  else
    let fit := linFit ys
    let v := volFactor ys
    .ok ((List.range periods).map (fun j =>
      let base := fit.1 + fit.2 * ((ys.length : ℚ) + (j : ℚ))
      ⟨base, base * (1 + v), base * (1 - v)⟩))

/-- Modelled from the spec: the non-fatal warnings accumulated by a full
analysis. The balance-sheet equation must hold within 1 percent or an
`inconsistent_statement` warning is attached; an industry code absent from
the benchmark table adds an `unknown_industry` warning. -/
def validationWarnings (s : Statement) (industry : String) : List String :=
  (if 100 * |s.balance.total_assets - (s.balance.total_liabilities + s.balance.equity)|
      ≤ s.balance.total_assets
   then [] else ["inconsistent_statement"]) ++
  (match lookupBenchSet industry with
   | some _ => []
   | none => ["unknown_industry"])

/-- Benchmark every metric of every category for a statement and collect the
four category sub-scores. -/
def categoryBench (s : Statement) (industry : String) : Components :=
  ⟨subScore ((liquidityMetrics s).map (fun m => rate m industry)),
   subScore ((profitabilityMetrics s).map (fun m => rate m industry)),
   subScore ((solvencyMetrics s).map (fun m => rate m industry)),
   subScore ((efficiencyMetrics s).map (fun m => rate m industry))⟩

/-- Overall 0-100 health score of a statement for an industry. -/
def healthScore (s : Statement) (industry : String) : Option ℚ :=
  overallScore (categoryBench s industry)

/-- Result record of a full analysis; `generated_at` is the only field that
depends on the clock. -/
structure AnalysisResult where
  health : Option ℚ
  health_rating : Option String
  credit : Option ℚ
  credit_rating : Option String
  forecast : Except String (List ForecastPoint)
  warnings : List String
  generated_at : ℕ

/-- Modelled from the spec: the AnalysisOrchestrator's `run_full_analysis`
(missing from `src/`): validate, compute and benchmark metrics, aggregate
the health score, score credit, forecast if history is supplied, and stamp
the result with the caller's clock. Every stage is a pure function of the
declared inputs. -/
def run_full_analysis (s : Statement) (industry : String) (hist : List ℚ)
    (periods : ℕ) (adjustments : ℚ) (now : ℕ) : AnalysisResult :=
  let h := healthScore s industry
  ⟨h, h.map healthRating,
   h.map (fun o => creditScore o adjustments),
   h.map (fun o => creditRating (creditScore o adjustments)),
   forecastEngine hist periods,
   validationWarnings s industry,
   now⟩

/-- Erase the explicit `generated_at` stamp from a result. -/
def stripGeneratedAt (r : AnalysisResult) : AnalysisResult :=
  ⟨r.health, r.health_rating, r.credit, r.credit_rating, r.forecast, r.warnings, 0⟩

/-- Shape of the JSON bodies the frontend API client posts to the analysis
endpoints: the payload plus the `industry` and `language` keys when the
client includes them (`none` models an absent key). -/
structure RequestBody where
  financial_data : Statement
  industry : Option String
  language : Option String
deriving DecidableEq

/-- Body built by `runFullAnalysis` in `frontend/src/services/api.js`
(lines 54-60): posts `financial_data`, `industry` and `language`, with the
JavaScript default parameters `industry = 'services'`, `language = 'en'`
applied when the caller omits the arguments. -/
def runFullAnalysisBody (fd : Statement) (industry language : Option String) : RequestBody :=
  ⟨fd, some (industry.getD "services"), some (language.getD "en")⟩

/-- Body built by `calculateMetrics` in `frontend/src/services/api.js`
(lines 62-67): posts `financial_data` and `industry` only; the function has
no language parameter and its body carries no `language` key. -/
def calculateMetricsBody (fd : Statement) (industry : Option String) : RequestBody :=
  ⟨fd, some (industry.getD "services"), none⟩

/-- Body built by `benchmarkAnalysis` in `frontend/src/services/api.js`
(lines 90-95): posts `metrics` and `industry` only; no `language` key. -/
def benchmarkAnalysisBody (fd : Statement) (industry : Option String) : RequestBody :=
  ⟨fd, some (industry.getD "services"), none⟩

/-- Payload passed to the upload success callback: the extracted statement,
if any, and the demo-mode flag. -/
structure UploadPayload where
  extracted_data : Option Statement
  demo_mode : Bool
deriving DecidableEq

/-- The demo-mode payload `customUpload` builds from `mockExtractedData` in
`frontend/src/pages/Upload.jsx`. -/
def mockPayload : UploadPayload := ⟨some mockExtractedData, true⟩

/-- Outcome of the backend call inside `customUpload`: the fetch resolved
with an ok response carrying parsed data, resolved with a non-ok response,
or threw. -/
inductive BackendResponse where
  | respOk (data : UploadPayload)
  | respErr
  | netThrow
deriving DecidableEq

/-- Which callback `customUpload` invoked, with its payload. -/
inductive UploadResult where
  | success (payload : UploadPayload)
  | failure
deriving DecidableEq

/-- The `customUpload` handler of `frontend/src/pages/Upload.jsx`
(lines 60-90), embedded from the source: an ok backend response passes its
data to `onSuccess`; a non-ok response or a thrown fetch falls into the
catch block, which calls `onSuccess` with the mock payload in demo mode.
`onError` is never called. -/
def customUpload : BackendResponse → UploadResult
  | .respOk d => .success d
  | .respErr => .success mockPayload
  | .netThrow => .success mockPayload

/-- The extracted data `handleUpload` (lines 92-114) stores on a done
upload: the response's `extracted_data` or, failing that, the mock data. -/
def uploadFlow (b : BackendResponse) : Option Statement :=
  match customUpload b with
  | .success p => some (p.extracted_data.getD mockExtractedData)
  | .failure => none

theorem clampQ_le_left (lo hi x : ℚ) : lo ≤ clampQ lo hi x :=
  le_max_left _ _

theorem clampQ_le_right (lo hi x : ℚ) (h : lo ≤ hi) : clampQ lo hi x ≤ hi :=
  max_le h (min_le_left _ _)

theorem clampQ_mono (lo hi x y : ℚ) (h : x ≤ y) : clampQ lo hi x ≤ clampQ lo hi y :=
  max_le_max le_rfl (min_le_min le_rfl h)

/-- C1: for fixed adjustments the CreditScorer's output is monotone
non-decreasing in the overall health score, and for every overall score in
the 0-100 range and every adjustments input the final credit score lies in
the 300-900 range. -/
theorem creditScorer_monotone_bounded :
    (∀ adj s t : ℚ, s ≤ t → creditScore s adj ≤ creditScore t adj) ∧
    (∀ s adj : ℚ, 0 ≤ s → s ≤ 100 →
      300 ≤ creditScore s adj ∧ creditScore s adj ≤ 900) := by
  constructor
  · intro adj s t hst
    apply clampQ_mono
    have : s / 100 * 600 ≤ t / 100 * 600 := by
      apply mul_le_mul_of_nonneg_right _ (by norm_num)
      exact div_le_div_of_nonneg_right hst (by norm_num)
    linarith
  · intro s adj _ _
    exact ⟨clampQ_le_left _ _ _, clampQ_le_right _ _ _ (by norm_num)⟩

/-- Witness for C1: the credit score at overall 50 is at most the score at
overall 60, and the score at overall 50 with adjustment 10 is inside the
300-900 range. -/
theorem creditScorer_monotone_bounded_witness :
    creditScore 50 0 ≤ creditScore 60 0 ∧
    300 ≤ creditScore 50 10 ∧ creditScore 50 10 ≤ 900 :=
  ⟨creditScorer_monotone_bounded.1 0 50 60 (by norm_num),
   (creditScorer_monotone_bounded.2 50 10 (by norm_num) (by norm_num)).1,
   (creditScorer_monotone_bounded.2 50 10 (by norm_num) (by norm_num)).2⟩

/-- C3: the specification's credit rating bands assign B to the score 725
(since 650 is at most 725 and 725 is below 750), but the Analysis page's
credit card displays the score 725 with the rating A, so the repository's
only concrete credit display contradicts the claimed bands. -/
theorem creditRating_bands_vs_analysis_page :
    creditRating analysisPageCreditScore = "B" ∧
    analysisPageCreditRating = "A" ∧
    creditRating analysisPageCreditScore ≠ analysisPageCreditRating := by
  refine ⟨?_, rfl, ?_⟩ <;>
    · norm_num [creditRating, analysisPageCreditScore, analysisPageCreditRating]
      try simp

/-- C8: two runs of the full analysis on identical inputs agree on every
field except the explicit `generated_at` stamp, whatever the two clock
readings are. -/
theorem run_full_analysis_deterministic :
    ∀ (s : Statement) (industry : String) (hist : List ℚ) (periods : ℕ)
      (adjustments : ℚ) (t1 t2 : ℕ),
      stripGeneratedAt (run_full_analysis s industry hist periods adjustments t1) =
      stripGeneratedAt (run_full_analysis s industry hist periods adjustments t2) := by
  intro s industry hist periods adjustments t1 t2
  rfl

/-- C9 counterexample: with the caller omitting the optional arguments, the
request body of `calculateMetrics` (and of `benchmarkAnalysis`) contains no
`language` key at all, refuting the claim that these entry points send
`language = "en"`. -/
theorem calculateMetrics_body_omits_language :
    (calculateMetricsBody mockExtractedData none).language = none ∧
    (benchmarkAnalysisBody mockExtractedData none).language = none ∧
    (calculateMetricsBody mockExtractedData none).language ≠ some "en" := by
  refine ⟨rfl, rfl, ?_⟩
  simp [calculateMetricsBody]

/-- C9 amended: when the caller omits the optional arguments,
`runFullAnalysis` sends `industry = "services"` and `language = "en"`, while
`calculateMetrics` and `benchmarkAnalysis` send `industry = "services"` but
no `language` key at all. -/
theorem api_default_arguments :
    (∀ fd : Statement,
      (runFullAnalysisBody fd none none).industry = some "services" ∧
      (runFullAnalysisBody fd none none).language = some "en") ∧
    (∀ fd : Statement,
      (calculateMetricsBody fd none).industry = some "services" ∧
      (calculateMetricsBody fd none).language = none) ∧
    (∀ fd : Statement,
      (benchmarkAnalysisBody fd none).industry = some "services" ∧
      (benchmarkAnalysisBody fd none).language = none) :=
  ⟨fun _ => ⟨rfl, rfl⟩, fun _ => ⟨rfl, rfl⟩, fun _ => ⟨rfl, rfl⟩⟩

/-- C10: the upload handler never invokes its error callback: every backend
outcome produces a success callback; a non-ok response or a thrown fetch
produces the mock payload with the demo-mode flag set; and the page always
ends up with some extracted data. -/
theorem customUpload_never_fails :
    (∀ b : BackendResponse, customUpload b ≠ .failure) ∧
    (∀ b : BackendResponse, b = .respErr ∨ b = .netThrow →
      customUpload b = .success mockPayload ∧ mockPayload.demo_mode = true) ∧
    (∀ b : BackendResponse, (uploadFlow b).isSome = true) := by
  refine ⟨?_, ?_, ?_⟩
  · intro b
    cases b <;> simp [customUpload]
  · intro b hb
    rcases hb with h | h <;> subst h <;> exact ⟨rfl, rfl⟩
  · intro b
    cases b <;> simp [uploadFlow, customUpload]

/-- Witness for C10: on a non-ok backend response the success callback fires
with the demo payload. -/
theorem customUpload_never_fails_witness :
    customUpload .respErr = .success mockPayload ∧ mockPayload.demo_mode = true :=
  customUpload_never_fails.2.1 .respErr (Or.inl rfl)

theorem rateAgainst_metric (bench : List (String × ℚ)) (m : Metric) :
    (rateAgainst bench m).metric = m := by
  cases hv : m.value <;>
    cases hb : ((bench.find? (fun p => p.1 == m.name)).map Prod.snd) <;>
      simp [rateAgainst, hv, hb]

theorem rateAgainst_warning (bench : List (String × ℚ)) (m : Metric) :
    (rateAgainst bench m).warning = false := by
  cases hv : m.value <;>
    cases hb : ((bench.find? (fun p => p.1 == m.name)).map Prod.snd) <;>
      simp [rateAgainst, hv, hb]

theorem rateAgainst_rating_none (bench : List (String × ℚ)) (m : Metric)
    (h : m.value = none) : (rateAgainst bench m).rating = none := by
  cases hb : ((bench.find? (fun p => p.1 == m.name)).map Prod.snd) <;>
    simp [rateAgainst, h, hb]

theorem rate_rating_none (m : Metric) (industry : String) (h : m.value = none) :
    (rate m industry).rating = none := by
  cases hl : lookupBenchSet industry <;>
    simp [rate, hl, rateAgainst_rating_none _ _ h]

theorem subScore_cons_undefined (bm : BenchmarkedMetric) (rest : List BenchmarkedMetric)
    (h : bm.rating = none) : subScore (bm :: rest) = subScore rest := by
  simp [subScore, definedRatings, List.filterMap_cons, h]

/-- C5: a ratio with a non-positive denominator is a metric whose value is
`none` with an attached `undefined_reason` (never an exception and never
zero), and any metric whose value is `none` is excluded from the
aggregator's category averages: its benchmarked form has no rating and
dropping it from a category leaves the sub-score unchanged. -/
theorem undefined_metric_policy :
    (∀ (nm : String) (num den : ℚ), den ≤ 0 →
      (ratioMetric nm num den).value = none ∧
      (ratioMetric nm num den).undefined_reason = some "non-positive denominator") ∧
    (∀ (m : Metric) (industry : String) (rest : List BenchmarkedMetric),
      m.value = none →
      (rate m industry).rating = none ∧
      subScore (rate m industry :: rest) = subScore rest) := by
  constructor
  · intro nm num den h
    simp [ratioMetric, h]
  · intro m industry rest h
    refine ⟨rate_rating_none m industry h, ?_⟩
    exact subScore_cons_undefined _ _ (rate_rating_none m industry h)

/-- Witness for C5: the current ratio over a zero denominator is undefined
with a reason, and prepending such a metric to a category leaves the
sub-score unchanged. -/
theorem undefined_metric_policy_witness :
    ((ratioMetric "current_ratio" 1 0).value = none ∧
     (ratioMetric "current_ratio" 1 0).undefined_reason =
       some "non-positive denominator") ∧
    subScore [rate ⟨"current_ratio", none, some "non-positive denominator"⟩ "services"] =
      subScore ([] : List BenchmarkedMetric) :=
  ⟨undefined_metric_policy.1 "current_ratio" 1 0 (by norm_num),
   (undefined_metric_policy.2 ⟨"current_ratio", none, some "non-positive denominator"⟩
     "services" [] rfl).2⟩

/-- C6: `rate` is total: for every metric and industry code it returns a
benchmarked form of that very metric; when the industry code is not in the
table the default `"services"` benchmark set is used (same rating and
benchmark value) and the result carries a warning, and when the code is
known the result carries none. -/
theorem benchmark_rate_fallback :
    (∀ (m : Metric) (industry : String), (rate m industry).metric = m) ∧
    (∀ (m : Metric) (industry : String), lookupBenchSet industry = none →
      (rate m industry).warning = true ∧
      (rate m industry).rating = (rateAgainst servicesBenchmarks m).rating ∧
      (rate m industry).benchmark_value = (rateAgainst servicesBenchmarks m).benchmark_value) ∧
    (∀ (m : Metric) (industry : String) (bs : List (String × ℚ)),
      lookupBenchSet industry = some bs → (rate m industry).warning = false) := by
  refine ⟨?_, ?_, ?_⟩
  · intro m industry
    cases hl : lookupBenchSet industry <;>
      simp [rate, hl, rateAgainst_metric]
  · intro m industry hl
    simp [rate, hl]
  · intro m industry bs hl
    simp [rate, hl, rateAgainst_warning]

/-- Witness for C6: the industry code `"retail"` is not in the modelled
table, so rating the mock current ratio for it warns and falls back to the
services benchmarks. -/
theorem benchmark_rate_fallback_witness :
    (rate (ratioMetric "current_ratio" 45000000 24000000) "retail").warning = true ∧
    (rate (ratioMetric "current_ratio" 45000000 24000000) "retail").rating =
      (rateAgainst servicesBenchmarks (ratioMetric "current_ratio" 45000000 24000000)).rating :=
  ⟨((benchmark_rate_fallback.2.1 (ratioMetric "current_ratio" 45000000 24000000) "retail")
      (by simp [lookupBenchSet, industryTable, List.find?])).1,
   ((benchmark_rate_fallback.2.1 (ratioMetric "current_ratio" 45000000 24000000) "retail")
      (by simp [lookupBenchSet, industryTable, List.find?])).2.1⟩

theorem mem_optPair (w : ℚ) (v : Option ℚ) (p : ℚ × ℚ) (hp : p ∈ optPair w v) :
    p.1 = w ∧ v = some p.2 := by
  cases v with
  | none => simp [optPair] at hp
  | some x =>
    simp [optPair] at hp
    subst hp
    exact ⟨rfl, rfl⟩

theorem mem_weightedPairs (c : Components) (p : ℚ × ℚ) (hp : p ∈ weightedPairs c) :
    (p.1 = 1/4 ∧ c.liquidity = some p.2) ∨
    (p.1 = 3/10 ∧ c.profitability = some p.2) ∨
    (p.1 = 1/4 ∧ c.solvency = some p.2) ∨
    (p.1 = 1/5 ∧ c.efficiency = some p.2) := by
  simp only [weightedPairs, List.mem_append] at hp
  rcases hp with ((h | h) | h) | h
  · exact Or.inl (mem_optPair _ _ _ h)
  · exact Or.inr (Or.inl (mem_optPair _ _ _ h))
  · exact Or.inr (Or.inr (Or.inl (mem_optPair _ _ _ h)))
  · exact Or.inr (Or.inr (Or.inr (mem_optPair _ _ _ h)))

theorem weightedPairs_ne_nil (c : Components)
    (h : c.liquidity.isSome = true ∨ c.profitability.isSome = true ∨
         c.solvency.isSome = true ∨ c.efficiency.isSome = true) :
    weightedPairs c ≠ [] := by
  intro hnil
  rcases h with h | h | h | h <;>
    · rcases Option.isSome_iff_exists.1 h with ⟨x, hx⟩
      simp [weightedPairs, optPair, hx, List.append_eq_nil] at hnil

theorem weightSum_nonneg (ps : List (ℚ × ℚ)) (h : ∀ p ∈ ps, 0 < p.1) :
    0 ≤ (ps.map Prod.fst).sum := by
  induction ps with
  | nil => simp
  | cons a t ih =>
    simp only [List.map_cons, List.sum_cons]
    have ha := h a (by simp)
    have ht := ih (fun p hp => h p (by simp [hp]))
    linarith

theorem weightSum_pos (ps : List (ℚ × ℚ)) (h : ∀ p ∈ ps, 0 < p.1) (hne : ps ≠ []) :
    0 < (ps.map Prod.fst).sum := by
  cases ps with
  | nil => exact absurd rfl hne
  | cons a t =>
    simp only [List.map_cons, List.sum_cons]
    have ha := h a (by simp)
    have ht := weightSum_nonneg t (fun p hp => h p (by simp [hp]))
    linarith

theorem pairSum_nonneg (ps : List (ℚ × ℚ))
    (h : ∀ p ∈ ps, 0 < p.1 ∧ 0 ≤ p.2 ∧ p.2 ≤ 100) :
    0 ≤ (ps.map (fun p => p.1 * p.2)).sum := by
  induction ps with
  | nil => simp
  | cons a t ih =>
    simp only [List.map_cons, List.sum_cons]
    have ha := h a (by simp)
    have ht := ih (fun p hp => h p (by simp [hp]))
    nlinarith [ha.1, ha.2.1]

theorem pairSum_le_hundred (ps : List (ℚ × ℚ))
    (h : ∀ p ∈ ps, 0 < p.1 ∧ 0 ≤ p.2 ∧ p.2 ≤ 100) :
    (ps.map (fun p => p.1 * p.2)).sum ≤ 100 * (ps.map Prod.fst).sum := by
  induction ps with
  | nil => simp
  | cons a t ih =>
    simp only [List.map_cons, List.sum_cons]
    have ha := h a (by simp)
    have ht := ih (fun p hp => h p (by simp [hp]))
    nlinarith [ha.1, ha.2.2]

/-- C2: the HealthScoreAggregator's overall score is the weighted mean of
the present category sub-scores under the fixed weights 0.25, 0.30, 0.25,
0.20 renormalized over the present categories (shown both for all four
present and for a liquidity-and-solvency-only statement), it lies in the
0-100 range whenever the present sub-scores do, the rating band is
Excellent exactly when the score is at least 80, Good on 60 to 80, Fair on
40 to 60 and Poor below 40, and the Dashboard mock (overall 72, rating
Good) conforms to those bands. -/
theorem healthAggregator_weighted_mean :
    (∀ c : Components,
      (∀ x, c.liquidity = some x → 0 ≤ x ∧ x ≤ 100) →
      (∀ x, c.profitability = some x → 0 ≤ x ∧ x ≤ 100) →
      (∀ x, c.solvency = some x → 0 ≤ x ∧ x ≤ 100) →
      (∀ x, c.efficiency = some x → 0 ≤ x ∧ x ≤ 100) →
      (c.liquidity.isSome = true ∨ c.profitability.isSome = true ∨
       c.solvency.isSome = true ∨ c.efficiency.isSome = true) →
      ∃ o, overallScore c = some o ∧ 0 ≤ o ∧ o ≤ 100) ∧
    (∀ l p s e : ℚ,
      overallScore ⟨some l, some p, some s, some e⟩ =
        some (1/4 * l + 3/10 * p + 1/4 * s + 1/5 * e)) ∧
    (∀ l s : ℚ,
      overallScore ⟨some l, none, some s, none⟩ =
        some ((1/4 * l + 1/4 * s) / (1/4 + 1/4))) ∧
    (∀ o : ℚ,
      (healthRating o = "Excellent" ↔ 80 ≤ o) ∧
      (healthRating o = "Good" ↔ 60 ≤ o ∧ o < 80) ∧
      (healthRating o = "Fair" ↔ 40 ≤ o ∧ o < 60) ∧
      (healthRating o = "Poor" ↔ o < 40)) ∧
    healthRating mockHealthScoreOverall = mockHealthScoreRating := by
  refine ⟨?_, ?_, ?_, ?_, ?_⟩
  · intro c h1 h2 h3 h4 hsome
    have hmem : ∀ p ∈ weightedPairs c, 0 < p.1 ∧ 0 ≤ p.2 ∧ p.2 ≤ 100 := by
      intro p hp
      rcases mem_weightedPairs c p hp with ⟨hw, hv⟩ | ⟨hw, hv⟩ | ⟨hw, hv⟩ | ⟨hw, hv⟩
      · exact ⟨by rw [hw]; norm_num, (h1 p.2 hv).1, (h1 p.2 hv).2⟩
      · exact ⟨by rw [hw]; norm_num, (h2 p.2 hv).1, (h2 p.2 hv).2⟩
      · exact ⟨by rw [hw]; norm_num, (h3 p.2 hv).1, (h3 p.2 hv).2⟩
      · exact ⟨by rw [hw]; norm_num, (h4 p.2 hv).1, (h4 p.2 hv).2⟩
    have htw : 0 < ((weightedPairs c).map Prod.fst).sum :=
      weightSum_pos _ (fun p hp => (hmem p hp).1) (weightedPairs_ne_nil c hsome)
    refine ⟨((weightedPairs c).map (fun p => p.1 * p.2)).sum /
              ((weightedPairs c).map Prod.fst).sum, ?_, ?_, ?_⟩
    · unfold overallScore
      rw [if_neg (not_le.2 htw)]
    · exact div_nonneg (pairSum_nonneg _ hmem) htw.le
    · rw [div_le_iff₀ htw]
      have := pairSum_le_hundred _ hmem
      linarith
  · intro l p s e
    simp [overallScore, weightedPairs, optPair]
    norm_num
    ring
  · intro l s
    simp [overallScore, weightedPairs, optPair]
  · intro o
    refine ⟨?_, ?_, ?_, ?_⟩ <;> unfold healthRating <;> split_ifs with h1 h2 h3 <;>
      simp <;> first
        | linarith
        | (intro h; linarith)
        | (constructor <;> linarith)
  · norm_num [healthRating, mockHealthScoreOverall, mockHealthScoreRating]

/-- Witness for C2: with all four sub-scores present at the band values 95,
78, 55, 30, the overall score exists and lies in the 0-100 range. -/
theorem healthAggregator_weighted_mean_witness :
    ∃ o, overallScore ⟨some 95, some 78, some 55, some 30⟩ = some o ∧ 0 ≤ o ∧ o ≤ 100 :=
  healthAggregator_weighted_mean.1 ⟨some 95, some 78, some 55, some 30⟩
    (by intro x hx; injection hx with h; subst h; norm_num)
    (by intro x hx; injection hx with h; subst h; norm_num)
    (by intro x hx; injection hx with h; subst h; norm_num)
    (by intro x hx; injection hx with h; subst h; norm_num)
    (Or.inl rfl)

theorem volFactor_bounds (ys : List ℚ) : 1/20 ≤ volFactor ys ∧ volFactor ys ≤ 3/10 := by
  unfold volFactor
  dsimp only
  split_ifs
  · exact ⟨by norm_num, le_rfl⟩
  · exact ⟨by norm_num, le_rfl⟩
  · exact ⟨le_rfl, by norm_num⟩
  · exact ⟨clampQ_le_left _ _ _, clampQ_le_right _ _ _ (by norm_num)⟩

/-- C7 counterexample: the three-point declining history 100, 50, 3 is
accepted by the ForecastEngine, and its first projected period has a
negative base of -46 with pessimistic band -161/5 = -32.2 and optimistic
band -299/5 = -59.8, so the claimed ordering pessimistic at most base fails
on this accepted series. -/
theorem forecast_ordering_counterexample :
    forecastEngine [100, 50, 3] 1 = .ok [⟨-46, -299/5, -161/5⟩] ∧
    ¬ ((-161/5 : ℚ) ≤ -46) := by
  have hr3 : List.range 3 = [0, 1, 2] := by decide
  have hr1 : List.range 1 = [0] := by decide
  constructor
  · unfold forecastEngine linFit volFactor
    norm_num [hr3, hr1, clampQ, List.zipWith]
  · norm_num

/-- C7 amended: a history of fewer than 3 points is rejected with
`insufficient_history`; for every accepted series the volatility factor is
bounded to the interval 0.05 to 0.30 and every projected period has
optimistic band base times (1 + v) and pessimistic band base times (1 - v),
and whenever the base projection is nonnegative the ordering pessimistic at
most base at most optimistic holds (the original unconditional ordering
fails for negative base projections). -/
theorem forecastEngine_props :
    (∀ (ys : List ℚ) (periods : ℕ), ys.length < 3 →
      forecastEngine ys periods = .error "insufficient_history") ∧
    (∀ (ys : List ℚ) (periods : ℕ) (out : List ForecastPoint),
      forecastEngine ys periods = .ok out →
      (1/20 ≤ volFactor ys ∧ volFactor ys ≤ 3/10) ∧
      ∀ pt ∈ out,
        pt.optimistic = pt.base * (1 + volFactor ys) ∧
        pt.pessimistic = pt.base * (1 - volFactor ys) ∧
        (0 ≤ pt.base → pt.pessimistic ≤ pt.base ∧ pt.base ≤ pt.optimistic)) := by
  constructor
  · intro ys periods h
    simp [forecastEngine, h]
  · intro ys periods out hok
    refine ⟨volFactor_bounds ys, ?_⟩
    intro pt hpt
    unfold forecastEngine at hok
    split at hok
    · exact absurd hok (by simp)
    · have hout : ((List.range periods).map (fun j =>
        let base := (linFit ys).1 + (linFit ys).2 * ((ys.length : ℚ) + (j : ℚ))
        (⟨base, base * (1 + volFactor ys), base * (1 - volFactor ys)⟩ : ForecastPoint)))
          = out := by
        exact Except.ok.inj hok
      rw [← hout] at hpt
      rcases List.mem_map.1 hpt with ⟨j, _, hj⟩
      subst hj
      have hv := volFactor_bounds ys
      refine ⟨rfl, rfl, ?_⟩
      intro hb
      simp only at hb ⊢
      constructor <;> nlinarith [hv.1, hv.2]

/-- Witness for C7: the accepted linear history 10, 20, 30 projects one
period with base 40, optimistic 52 and pessimistic 28, and the ordering
holds there. -/
theorem forecastEngine_props_witness :
    forecastEngine [10, 20, 30] 1 = .ok [⟨40, 52, 28⟩] ∧
    (⟨40, 52, 28⟩ : ForecastPoint).pessimistic ≤ (⟨40, 52, 28⟩ : ForecastPoint).base ∧
    (⟨40, 52, 28⟩ : ForecastPoint).base ≤ (⟨40, 52, 28⟩ : ForecastPoint).optimistic := by
  have hr3 : List.range 3 = [0, 1, 2] := by decide
  have hr1 : List.range 1 = [0] := by decide
  have heval : forecastEngine [10, 20, 30] 1 = .ok [⟨40, 52, 28⟩] := by
    unfold forecastEngine linFit volFactor
    norm_num [hr3, hr1, clampQ, List.zipWith]
  have h := (forecastEngine_props.2 [10, 20, 30] 1 [⟨40, 52, 28⟩] heval).2
    ⟨40, 52, 28⟩ (by simp)
  exact ⟨heval, h.2.2 (by norm_num)⟩

/-- C4: for the demo statement of the Upload page with industry `"services"`
the current ratio is exactly 1.875 = 15/8 (and in general the current ratio
equals current assets over current liabilities for every statement with
positive current liabilities), the net margin is exactly 0.16, the return on
equity exactly 0.1152, the debt-to-equity ratio is within 0.001 of 0.667,
the overall health score exists and falls in the Good band, and the warnings
list is empty. -/
theorem end_to_end_mock_statement :
    (∀ s : Statement, 0 < s.balance.current_liabilities →
      metricValue (liquidityMetrics s) "current_ratio" =
        some (s.balance.current_assets / s.balance.current_liabilities)) ∧
    metricValue (liquidityMetrics mockExtractedData) "current_ratio" = some (15/8) ∧
    metricValue (profitabilityMetrics mockExtractedData) "net_margin" = some (16/100) ∧
    metricValue (profitabilityMetrics mockExtractedData) "roe" = some (1152/10000) ∧
    (∃ d, metricValue (solvencyMetrics mockExtractedData) "debt_to_equity" = some d ∧
      |d - 667/1000| < 1/1000) ∧
    (∃ h, healthScore mockExtractedData "services" = some h ∧
      (healthRating h = "Good" ∨ healthRating h = "Excellent")) ∧
    validationWarnings mockExtractedData "services" = [] := by
  have h24 : ¬((24000000 : ℚ) ≤ 0) := by norm_num
  have h54 : ¬((54000000 : ℚ) ≤ 0) := by norm_num
  have h75 : ¬((75000000 : ℚ) ≤ 0) := by norm_num
  have h125 : ¬((125000000 : ℚ) ≤ 0) := by norm_num
  refine ⟨?_, ?_, ?_, ?_, ⟨2/3, ?_, by rw [abs_lt]; constructor <;> norm_num⟩,
    ⟨2989/40, ?_, Or.inl ?_⟩, ?_⟩
  · intro s hcl
    simp [metricValue, liquidityMetrics, ratioMetric, List.find?, not_le.2 hcl]
  · simp [metricValue, liquidityMetrics, ratioMetric, ratioMetricOpt,
      mockExtractedData, List.find?, h24]
    norm_num
  · simp [metricValue, profitabilityMetrics, ratioMetric, mockExtractedData,
      List.find?, h54]
    norm_num
  · simp [metricValue, profitabilityMetrics, ratioMetric, mockExtractedData,
      List.find?, h54, h75]
    norm_num
  · simp [metricValue, solvencyMetrics, ratioMetric, mockExtractedData,
      List.find?, h75]
    norm_num
  · simp [healthScore, categoryBench, overallScore, weightedPairs, optPair,
      subScore, definedRatings, liquidityMetrics, profitabilityMetrics,
      solvencyMetrics, efficiencyMetrics, rate, rateAgainst, lookupBenchSet,
      industryTable, servicesBenchmarks, lowerIsBetter, rateHigher, rateLower,
      ratingBandValue, ratioMetric, ratioMetricOpt, mockExtractedData,
      List.find?, List.filterMap, h24, h54, h75, h125]
    norm_num
  · norm_num [healthRating]
  · simp [validationWarnings, lookupBenchSet, industryTable, List.find?,
      mockExtractedData]
    norm_num

/-- Witness for C4: the general current-ratio identity applied to the demo
statement itself. -/
theorem end_to_end_mock_statement_witness :
    metricValue (liquidityMetrics mockExtractedData) "current_ratio" =
      some (mockExtractedData.balance.current_assets /
            mockExtractedData.balance.current_liabilities) :=
  end_to_end_mock_statement.1 mockExtractedData (by norm_num [mockExtractedData])

end FinHealth
